import Mathlib

/-!
Verification of the exotel-websocket-middleware call-session engine.

The definitions below are a shallow embedding of
`src/exotel_websocket_middleware/exotel_websocket_server.py`:

* `JValue` models the Python values produced by `json.loads`;
* `b64encode` / `pyB64decode` model `base64.b64encode` / `base64.b64decode`;
* `pyStrToInt` models Python's `int(...)` applied to a string;
* `AudioConverter.to_pcm_base64` wraps the external pydub decode engine,
  which is modelled as an oracle function inside `AudioEnv`;
* `TTSService` models the credential handling of the ElevenLabs client;
  its remote HTTP call is modelled as an oracle function inside `Env`;
* `mediaPipeline` / `handleMessage` / `runSession` model the per-message
  body of `exotel_handler` and the `async for` message loop.
-/

/-- Values produced by Python's `json.loads`: null, booleans, integers,
strings, arrays, objects (dicts as association lists, no duplicate keys). -/
inductive JValue where
  | null : JValue
  | bool : Bool → JValue
  | num : Int → JValue
  | str : String → JValue
  | arr : List JValue → JValue
  | obj : List (String × JValue) → JValue

/-- Dictionary lookup on a parsed JSON object (Python `dict[...]` /
`dict.get`): first binding of the key, if any. -/
def jLookup (fields : List (String × JValue)) (k : String) : Option JValue :=
  match fields with
  | [] => none
  | (k2, v) :: rest => if k2 = k then some v else jLookup rest k

/-- Lookup of a key inside a `JValue` that is expected to be an object. -/
def jLookupV (v : JValue) (k : String) : Option JValue :=
  match v with
  | JValue.obj fields => jLookup fields k
  | _ => none

/-- Whether the value is a JSON object (Python `isinstance(data, dict)`). -/
def JValue.isObj : JValue → Bool
  | JValue.obj _ => true
  | _ => false

/-! ### Base64 (`base64.b64encode` / `base64.b64decode`) -/

/-- The standard base64 alphabet. -/
def b64AlphabetChars : List Char :=
  ['A', 'B', 'C', 'D', 'E', 'F', 'G', 'H', 'I', 'J', 'K', 'L', 'M',
   'N', 'O', 'P', 'Q', 'R', 'S', 'T', 'U', 'V', 'W', 'X', 'Y', 'Z',
   'a', 'b', 'c', 'd', 'e', 'f', 'g', 'h', 'i', 'j', 'k', 'l', 'm',
   'n', 'o', 'p', 'q', 'r', 's', 't', 'u', 'v', 'w', 'x', 'y', 'z',
   '0', '1', '2', '3', '4', '5', '6', '7', '8', '9', '+', '/']

/-- Sextet value (0..63) to base64 character. -/
def encodeChar (n : Nat) : Char := b64AlphabetChars.getD n 'A'

/-- Helper for `decodeChar`: position of a character in the alphabet. -/
def decodeCharAux : List Char → Nat → Char → Option Nat
  | [], _, _ => none
  | a :: rest, i, c => if a = c then some i else decodeCharAux rest (i + 1) c

/-- Base64 character to sextet value, `none` for non-alphabet characters. -/
def decodeChar (c : Char) : Option Nat := decodeCharAux b64AlphabetChars 0 c

/-- Standard base64 encoding of a byte list (values 0..255), as characters;
groups of three bytes become four characters, with `=` padding. -/
def b64EncodeList : List Nat → List Char
  | b0 :: b1 :: b2 :: rest =>
      encodeChar (b0 / 4) :: encodeChar ((b0 % 4) * 16 + b1 / 16) ::
      encodeChar ((b1 % 16) * 4 + b2 / 64) :: encodeChar (b2 % 64) ::
      b64EncodeList rest
  | [b0, b1] =>
      [encodeChar (b0 / 4), encodeChar ((b0 % 4) * 16 + b1 / 16),
       encodeChar ((b1 % 16) * 4), '=']
  | [b0] =>
      [encodeChar (b0 / 4), encodeChar ((b0 % 4) * 16), '=', '=']
  | [] => []

/-- Python `base64.b64encode(bs).decode('utf-8')`. -/
def b64encode (bs : List Nat) : String := String.mk (b64EncodeList bs)

/-- Characters Python's forgiving base64 decoder keeps: alphabet and `=`. -/
def isB64Keep (c : Char) : Bool := (decodeChar c).isSome || c = '='

/-- Decode a filtered character stream in groups of four; `=` padding is
accepted only at the very end; `none` models `binascii.Error`. -/
def b64DecodeChunks : List Char → Option (List Nat)
  | [] => some []
  | c0 :: c1 :: c2 :: c3 :: rest =>
    match decodeChar c0, decodeChar c1 with
    | some s0, some s1 =>
      if c2 = '=' then
        (if c3 = '=' ∧ rest = [] then some [s0 * 4 + s1 / 16] else none)
      else
        match decodeChar c2 with
        | some s2 =>
          if c3 = '=' then
            (if rest = [] then
               some [s0 * 4 + s1 / 16, (s1 % 16) * 16 + s2 / 4]
             else none)
          else
            match decodeChar c3 with
            | some s3 =>
              match b64DecodeChunks rest with
              | some tail =>
                  some ([s0 * 4 + s1 / 16, (s1 % 16) * 16 + s2 / 4,
                         (s2 % 4) * 64 + s3] ++ tail)
              | none => none
            | none => none
        | none => none
    | _, _ => none
  | _ => none

/-- Whether a string has a non-ASCII character (Python `str.encode('ascii')`
raises on those). -/
def hasNonAscii (s : String) : Bool := s.toList.any (fun c => 128 ≤ c.toNat)

/-- Python `base64.b64decode` on a `str`: rejects non-ASCII input, discards
characters outside the alphabet, then decodes; `none` models the raised
`binascii.Error` / `ValueError`. -/
def pyB64decode (s : String) : Option (List Nat) :=
  if hasNonAscii s then none
  else b64DecodeChunks (s.toList.filter isB64Keep)

/-! ### Python `int(...)` on strings and `str(...)` on ints -/

/-- Strip leading and trailing whitespace, as Python `int` does. -/
def trimSpaces (cs : List Char) : List Char :=
  ((cs.dropWhile Char.isWhitespace).reverse.dropWhile Char.isWhitespace).reverse

/-- Value of a nonempty all-digit character list, else `none`. -/
def digitsToNat (cs : List Char) : Option Nat :=
  if cs.isEmpty || !(cs.all Char.isDigit) then none
  else some (cs.foldl (fun a c => a * 10 + (c.toNat - 48)) 0)

/-- Python `int(s)` for a string `s`: optional surrounding whitespace,
optional sign, decimal digits; `none` models the raised `ValueError`. -/
def pyStrToInt (s : String) : Option Int :=
  match trimSpaces s.toList with
  | '-' :: rest => (digitsToNat rest).map (fun n => -(n : Int))
  | '+' :: rest => (digitsToNat rest).map (fun n => (n : Int))
  | cs => (digitsToNat cs).map (fun n => (n : Int))

/-! ### AudioConverter (source lines 82-101) -/

/-- Environment of `AudioConverter.to_pcm_base64`: whether the configured
ffmpeg/ffprobe binaries exist, and the pydub decode engine
(`AudioSegment.from_file` followed by
`set_frame_rate(8000).set_channels(1).set_sample_width(2)` and `raw_data`),
modelled as an oracle that returns the raw 8 kHz / mono / 16-bit PCM bytes,
or `none` when the engine raises. -/
structure AudioEnv where
  ffmpegExists : Bool
  ffprobeExists : Bool
  decode : List Nat → Option (List Nat)

namespace AudioConverter

/-- Source `AudioConverter.to_pcm_base64`: checks the ffmpeg/ffprobe paths,
runs the decode engine, base64-encodes its raw PCM output; every exception
is caught and turned into `None` (modelled as `none`). -/
def to_pcm_base64 (env : AudioEnv) (audio_bytes : List Nat) : Option String :=
  if env.ffmpegExists = false then none
  else if env.ffprobeExists = false then none
  else
    match env.decode audio_bytes with
    | some pcm => some (b64encode pcm)
    | none => none

end AudioConverter

/-! ### TTSService and process startup (source lines 52-80 and 180-185) -/

/-- The environment variables the source reads via `os.getenv`. -/
structure OsEnv where
  elevenlabsApiKey : Option String
  elevenlabsVoiceId : Option String
  websocketPort : Option String

/-- Python truthiness of an `os.getenv` result: `None` and `""` are falsy. -/
def pyTruthyOptStr : Option String → Bool
  | none => false
  | some s => if s = "" then false else true

/-- A successfully constructed `TTSService` holds its credentials. -/
structure TTSService where
  api_key : String
  voice_id : String

/-- Source `TTSService.__init__`: reads both credentials and raises
`ValueError` (modelled as `Except.error`) when either is missing or empty. -/
def TTSService.construct (env : OsEnv) : Except String TTSService :=
  if pyTruthyOptStr env.elevenlabsApiKey && pyTruthyOptStr env.elevenlabsVoiceId then
    Except.ok ⟨env.elevenlabsApiKey.getD "", env.elevenlabsVoiceId.getD ""⟩
  else Except.error "Missing ElevenLabs API credentials in environment variables"

/-- Whether `TTSService.construct` succeeds. -/
def ttsConstructOk (env : OsEnv) : Bool :=
  match TTSService.construct env with
  | Except.ok _ => true
  | Except.error _ => false

/-- Whether the process reaches `websockets.serve`: the module-level checks
require the ffmpeg and ffprobe binaries (source lines 40-43), and `main`
parses `WEBSOCKET_PORT` with `int` (source line 181).  Credentials are not
consulted anywhere on this path. -/
def processStarts (audio : AudioEnv) (env : OsEnv) : Bool :=
  audio.ffmpegExists && audio.ffprobeExists &&
    (pyStrToInt (env.websocketPort.getD "8777")).isSome

/-! ### The per-connection session (source lines 103-178) -/

/-- External effects environment of one session: the ElevenLabs remote call
(`TTSService.generate_speech`, an oracle returning the response bytes or
`none` for the caught `RequestException` path) and the audio environment
used by `AudioConverter.to_pcm_base64`. -/
structure Env where
  synth : JValue → Option (List Nat)
  audio : AudioEnv

/-- Observable effects of processing messages: the arguments of the
`generate_speech` calls, the arguments of the `to_pcm_base64` calls, and
the frames passed to `websocket.send`, each in order. -/
structure Effects where
  synthCalls : List JValue
  transcodeCalls : List (List Nat)
  sent : List JValue

/-- No effects. -/
def Effects.empty : Effects := ⟨[], [], []⟩

/-- Effects of two consecutive processing steps. -/
def Effects.append (a b : Effects) : Effects :=
  ⟨a.synthCalls ++ b.synthCalls, a.transcodeCalls ++ b.transcodeCalls,
   a.sent ++ b.sent⟩

/-- Boolean list-prefix test used by the substring test below. -/
def listStartsWith : List Char → List Char → Bool
  | [], _ => true
  | _ :: _, [] => false
  | a :: as2, b :: bs2 => a = b && listStartsWith as2 bs2

/-- Boolean substring test (Python `needle in haystack` on strings). -/
def listIsSub (needle hay : List Char) : Bool :=
  match hay with
  | [] => needle.isEmpty
  | _ :: rest => listStartsWith needle hay || listIsSub needle rest

/-- Python `k in container` for the membership tests on line 126; raises
`TypeError` (modelled as `Except.error`) on values with no `in` support. -/
def pyContains (container : JValue) (k : String) : Except Unit Bool :=
  match container with
  | JValue.obj fs => Except.ok (jLookup fs k).isSome
  | JValue.str s => Except.ok (listIsSub k.toList s.toList)
  | JValue.arr xs =>
      Except.ok (xs.any (fun v =>
        match v with
        | JValue.str s2 => s2 = k
        | _ => false))
  | _ => Except.error ()

/-- Python `container[k]` for a string key: `KeyError` when the key is
absent from a dict, `TypeError` on every non-dict value. -/
def pyGetItem (container : JValue) (k : String) : Except Unit JValue :=
  match container with
  | JValue.obj fs =>
      match jLookup fs k with
      | some v => Except.ok v
      | none => Except.error ()
  | _ => Except.error ()

/-- Python `v + 1` on a JSON value: ints add, bools are ints (`True + 1`
is `2`), everything else raises `TypeError`. -/
def pyAddOne : JValue → Except Unit JValue
  | JValue.num n => Except.ok (JValue.num (n + 1))
  | JValue.bool b => Except.ok (JValue.num (if b then 2 else 1))
  | _ => Except.error ()

/-- Python `int(v)` on a JSON value. -/
def pyToInt : JValue → Except Unit Int
  | JValue.num n => Except.ok n
  | JValue.bool b => Except.ok (if b then 1 else 0)
  | JValue.str s =>
      match pyStrToInt s with
      | some i => Except.ok i
      | none => Except.error ()
  | _ => Except.error ()

/-- Source line 125: `media = data.get("media", {})`. -/
def mediaValOf (fields : List (String × JValue)) : JValue :=
  (jLookup fields "media").getD (JValue.obj [])

/-- The default response text of source line 135. -/
def defaultResponseText : JValue :=
  JValue.str "Hello, this is an automated response"

/-- Source lines 126-135: field validation, base64 decode of the inbound
payload, and response-text lookup; any raised exception is `Except.error`
(they are all caught by the handlers on lines 166-171).  On success,
returns the response text passed to `generate_speech`. -/
def mediaPre (fields : List (String × JValue)) (media : JValue) : Except Unit JValue :=
  match pyContains media "payload" with
  | Except.error e => Except.error e
  | Except.ok false => Except.error ()
  | Except.ok true =>
  match pyContains media "chunk" with
  | Except.error e => Except.error e
  | Except.ok false => Except.error ()
  | Except.ok true =>
  match pyContains media "timestamp" with
  | Except.error e => Except.error e
  | Except.ok false => Except.error ()
  | Except.ok true =>
  match pyGetItem media "payload" with
  | Except.error e => Except.error e
  | Except.ok pv =>
  match pv with
  | JValue.str ps =>
    match pyB64decode ps with
    | none => Except.error ()
    | some _ =>
      match jLookup fields "parameters" with
      | none => Except.ok defaultResponseText
      | some (JValue.obj pf) =>
          Except.ok ((jLookup pf "response_text").getD defaultResponseText)
      | some _ => Except.error ()
  | _ => Except.error ()

/-- Source lines 148-157: construction of the outbound frame, evaluated in
Python's order; a missing `stream_sid` or `sequence_number` raises
`KeyError`, a non-numeric counter raises `TypeError`, a bad timestamp
raises `ValueError` — all modelled as `Except.error`. -/
def buildResponse (fields : List (String × JValue)) (media : JValue)
    (s : String) : Except Unit JValue :=
  match pyGetItem (JValue.obj fields) "stream_sid" with
  | Except.error e => Except.error e
  | Except.ok sid =>
  match pyGetItem (JValue.obj fields) "sequence_number" with
  | Except.error e => Except.error e
  | Except.ok seqv =>
  match pyAddOne seqv with
  | Except.error e => Except.error e
  | Except.ok seqOut =>
  match pyGetItem media "chunk" with
  | Except.error e => Except.error e
  | Except.ok chunkv =>
  match pyAddOne chunkv with
  | Except.error e => Except.error e
  | Except.ok chunkOut =>
  match pyGetItem media "timestamp" with
  | Except.error e => Except.error e
  | Except.ok tsv =>
  match pyToInt tsv with
  | Except.error e => Except.error e
  | Except.ok i =>
  Except.ok (JValue.obj
    [("event", JValue.str "media"),
     ("stream_sid", sid),
     ("sequence_number", seqOut),
     ("media", JValue.obj
       [("chunk", chunkOut),
        ("timestamp", JValue.str (toString (i + 20))),
        ("payload", JValue.str s)])])

/-- Source lines 124-158, the `media` branch: validation, synthesis,
transcoding, response construction and send, with the source's abort
points (`continue` on falsy synthesis or transcoding results, caught
exceptions elsewhere). -/
def mediaPipeline (env : Env) (fields : List (String × JValue)) : Effects :=
  match mediaPre fields (mediaValOf fields) with
  | Except.error _ => Effects.empty
  | Except.ok rt =>
    match env.synth rt with
    | none => ⟨[rt], [], []⟩
    | some ab =>
      if ab = [] then ⟨[rt], [], []⟩
      else
        match AudioConverter.to_pcm_base64 env.audio ab with
        | none => ⟨[rt], [ab], []⟩
        | some s =>
          if s = "" then ⟨[rt], [ab], []⟩
          else
            match buildResponse fields (mediaValOf fields) s with
            | Except.error _ => ⟨[rt], [ab], []⟩
            | Except.ok resp => ⟨[rt], [ab], [resp]⟩

/-- One iteration of the `async for` loop (source lines 108-171): a message
is either undecodable JSON (`none`) or a parsed value; non-dict values and
all other per-message exceptions are caught, so every message produces a
total `Effects` and the loop continues.  Only `media` events reach the
pipeline; `connected`, `start`, `stop` and unknown events only log. -/
def handleMessage (env : Env) (msg : Option JValue) : Effects :=
  match msg with
  | some (JValue.obj fields) =>
      match jLookup fields "event" with
      | some (JValue.str e) =>
          if e = "media" then mediaPipeline env fields else Effects.empty
      | _ => Effects.empty
  | _ => Effects.empty

/-- The whole message loop over the inbound messages of one connection,
in arrival order. -/
def runSession (env : Env) : List (Option JValue) → Effects
  | [] => Effects.empty
  | m :: rest => Effects.append (handleMessage env m) (runSession env rest)

/-- Source lines 103-108: the handler constructs a `TTSService` before
reading any message; a construction failure escapes the handler (it is
outside the `try`), so no message is processed. -/
def exotelHandler (os2 : OsEnv) (env : Env) (msgs : List (Option JValue)) :
    Except String Effects :=
  match TTSService.construct os2 with
  | Except.error e => Except.error e
  | Except.ok _ => Except.ok (runSession env msgs)

/-- Lifecycle states of the spec's session state machine. -/
inductive LState where
  | awaitingStart : LState
  | active : LState
  | terminated : LState
deriving DecidableEq

/-- Modelled from the spec: the source keeps no lifecycle variable, so this
is the spec section 4.2 transition table applied to the code's event
dispatch (`data.get("event")` on a parsed dict); malformed messages and
unrecognized events leave the state unchanged. -/
def stepLifecycle (s : LState) (msg : Option JValue) : LState :=
  match msg with
  | some (JValue.obj fields) =>
      match jLookup fields "event" with
      | some (JValue.str e) =>
          if e = "start" then
            (match s with
             | LState.awaitingStart => LState.active
             | _ => s)
          else if e = "stop" then LState.terminated
          else s
      | _ => s
  | _ => s

/-! ### Concrete inputs used by the witnesses and counterexamples -/

/-- A media object carrying all three required fields. -/
def exMediaFields : List (String × JValue) :=
  [("payload", JValue.str ""), ("chunk", JValue.num 1),
   ("timestamp", JValue.str "1000")]

/-- A fully well-formed inbound media frame (the end-to-end scenario of the
spec, section 8). -/
def exFields : List (String × JValue) :=
  [("event", JValue.str "media"), ("stream_sid", JValue.str "sid"),
   ("sequence_number", JValue.num 1),
   ("media", JValue.obj exMediaFields),
   ("parameters", JValue.obj [("response_text", JValue.str "hi")])]

/-- The same frame without its top-level `stream_sid`. -/
def exFieldsNoSid : List (String × JValue) :=
  [("event", JValue.str "media"),
   ("sequence_number", JValue.num 1),
   ("media", JValue.obj exMediaFields),
   ("parameters", JValue.obj [("response_text", JValue.str "hi")])]

/-- A media frame with `stream_sid` `"a"`. -/
def exFieldsSidA : List (String × JValue) :=
  [("event", JValue.str "media"), ("stream_sid", JValue.str "a"),
   ("sequence_number", JValue.num 1),
   ("media", JValue.obj exMediaFields),
   ("parameters", JValue.obj [("response_text", JValue.str "hi")])]

/-- A media frame with `stream_sid` `"b"`. -/
def exFieldsSidB : List (String × JValue) :=
  [("event", JValue.str "media"), ("stream_sid", JValue.str "b"),
   ("sequence_number", JValue.num 1),
   ("media", JValue.obj exMediaFields),
   ("parameters", JValue.obj [("response_text", JValue.str "hi")])]

/-- A media frame whose media object lacks `timestamp`. -/
def exFieldsMissingTs : List (String × JValue) :=
  [("event", JValue.str "media"), ("stream_sid", JValue.str "sid"),
   ("sequence_number", JValue.num 1),
   ("media", JValue.obj [("payload", JValue.str ""), ("chunk", JValue.num 1)])]

/-- An inbound stop frame. -/
def exStopMsg : Option JValue := some (JValue.obj [("event", JValue.str "stop")])

/-- A session environment whose synthesis and transcoding both succeed:
synthesis returns the byte `65`, the decode engine produces the single PCM
byte `77` (base64 `"TQ=="`). -/
def exEnvOk : Env :=
  ⟨fun _ => some [65], ⟨true, true, fun _ => some [77]⟩⟩

/-- An environment whose synthesis succeeds with non-empty audio but whose
decode engine always raises. -/
def exEnvTransFail : Env :=
  ⟨fun _ => some [65], ⟨true, true, fun _ => none⟩⟩

/-- An environment whose synthesis remote call always fails. -/
def exEnvSynthFail : Env :=
  ⟨fun _ => none, ⟨true, true, fun _ => some [77]⟩⟩

/-- The outbound frame `exEnvOk` produces for `exFields`. -/
def exOut : JValue :=
  JValue.obj
    [("event", JValue.str "media"),
     ("stream_sid", JValue.str "sid"),
     ("sequence_number", JValue.num 2),
     ("media", JValue.obj
       [("chunk", JValue.num 2),
        ("timestamp", JValue.str "1020"),
        ("payload", JValue.str "TQ==")])]

/-- A concrete audio environment for the transcoder theorem: the decode
engine always produces the two PCM bytes `0` and `255`. -/
def exAudioEnv : AudioEnv := ⟨true, true, fun _ => some [0, 255]⟩

/-! ### Helper lemmas about the base64 codec -/

/-- Decoding inverts encoding on every sextet value. -/
theorem dec_enc_fin : ∀ s : Fin 64, decodeChar (encodeChar s.val) = some s.val := by
  decide

/-- No alphabet character is the padding character. -/
theorem enc_ne_pad_fin : ∀ s : Fin 64, ¬ (encodeChar s.val = '=') := by
  decide

/-- Alphabet characters survive the decoder's filter and are ASCII. -/
theorem enc_keep_fin :
    ∀ s : Fin 64, isB64Keep (encodeChar s.val) = true ∧ (encodeChar s.val).toNat < 128 := by
  decide

theorem dec_enc (s : Nat) (h : s < 64) : decodeChar (encodeChar s) = some s :=
  dec_enc_fin ⟨s, h⟩

theorem enc_ne_pad (s : Nat) (h : s < 64) : ¬ (encodeChar s = '=') :=
  enc_ne_pad_fin ⟨s, h⟩

theorem enc_keep (s : Nat) (h : s < 64) : isB64Keep (encodeChar s) = true :=
  (enc_keep_fin ⟨s, h⟩).1

theorem enc_ascii (s : Nat) (h : s < 64) : (encodeChar s).toNat < 128 :=
  (enc_keep_fin ⟨s, h⟩).2

/-- Chunk-level decode inverts chunk-level encode on byte lists. -/
theorem b64_decode_encode : ∀ (bs : List Nat), (∀ b ∈ bs, b < 256) →
    b64DecodeChunks (b64EncodeList bs) = some bs
  | [], _ => by simp [b64EncodeList, b64DecodeChunks]
  | [b0], h => by
      have h0 : b0 < 256 := h b0 (by simp)
      have hs0 : b0 / 4 < 64 := by omega
      have hs1 : (b0 % 4) * 16 < 64 := by omega
      simp only [b64EncodeList, b64DecodeChunks, dec_enc _ hs0, dec_enc _ hs1]
      simp
      omega
  | [b0, b1], h => by
      have h0 : b0 < 256 := h b0 (by simp)
      have h1 : b1 < 256 := h b1 (by simp)
      have hs0 : b0 / 4 < 64 := by omega
      have hs1 : (b0 % 4) * 16 + b1 / 16 < 64 := by omega
      have hs2 : (b1 % 16) * 4 < 64 := by omega
      simp only [b64EncodeList, b64DecodeChunks, dec_enc _ hs0, dec_enc _ hs1,
        dec_enc _ hs2]
      simp [enc_ne_pad _ hs2]
      omega
  | b0 :: b1 :: b2 :: rest, h => by
      have h0 : b0 < 256 := h b0 (by simp)
      have h1 : b1 < 256 := h b1 (by simp)
      have h2 : b2 < 256 := h b2 (by simp)
      have hrest : ∀ b ∈ rest, b < 256 := fun b hb => h b (by simp [hb])
      have hs0 : b0 / 4 < 64 := by omega
      have hs1 : (b0 % 4) * 16 + b1 / 16 < 64 := by omega
      have hs2 : (b1 % 16) * 4 + b2 / 64 < 64 := by omega
      have hs3 : b2 % 64 < 64 := by omega
      have ih := b64_decode_encode rest hrest
      simp only [b64EncodeList, b64DecodeChunks, dec_enc _ hs0, dec_enc _ hs1,
        dec_enc _ hs2, dec_enc _ hs3, ih]
      simp [enc_ne_pad _ hs2, enc_ne_pad _ hs3]
      refine ⟨by omega, by omega, by omega⟩

/-- Every character emitted by the encoder survives the decoder's filter
and is ASCII. -/
theorem b64EncodeList_mem : ∀ (bs : List Nat), (∀ b ∈ bs, b < 256) →
    ∀ c ∈ b64EncodeList bs, isB64Keep c = true ∧ c.toNat < 128
  | [], _ => by simp [b64EncodeList]
  | [b0], h => by
      have h0 : b0 < 256 := h b0 (by simp)
      have hs0 : b0 / 4 < 64 := by omega
      have hs1 : (b0 % 4) * 16 < 64 := by omega
      intro c hc
      simp only [b64EncodeList, List.mem_cons, List.mem_singleton] at hc
      rcases hc with rfl | rfl | rfl | rfl | hc
      · exact ⟨enc_keep _ hs0, enc_ascii _ hs0⟩
      · exact ⟨enc_keep _ hs1, enc_ascii _ hs1⟩
      · exact ⟨by decide, by decide⟩
      · exact ⟨by decide, by decide⟩
      · simp at hc
  | [b0, b1], h => by
      have h0 : b0 < 256 := h b0 (by simp)
      have h1 : b1 < 256 := h b1 (by simp)
      have hs0 : b0 / 4 < 64 := by omega
      have hs1 : (b0 % 4) * 16 + b1 / 16 < 64 := by omega
      have hs2 : (b1 % 16) * 4 < 64 := by omega
      intro c hc
      simp only [b64EncodeList, List.mem_cons, List.mem_singleton] at hc
      rcases hc with rfl | rfl | rfl | rfl | hc
      · exact ⟨enc_keep _ hs0, enc_ascii _ hs0⟩
      · exact ⟨enc_keep _ hs1, enc_ascii _ hs1⟩
      · exact ⟨enc_keep _ hs2, enc_ascii _ hs2⟩
      · exact ⟨by decide, by decide⟩
      · simp at hc
  | b0 :: b1 :: b2 :: rest, h => by
      have h0 : b0 < 256 := h b0 (by simp)
      have h1 : b1 < 256 := h b1 (by simp)
      have h2 : b2 < 256 := h b2 (by simp)
      have hrest : ∀ b ∈ rest, b < 256 := fun b hb => h b (by simp [hb])
      have hs0 : b0 / 4 < 64 := by omega
      have hs1 : (b0 % 4) * 16 + b1 / 16 < 64 := by omega
      have hs2 : (b1 % 16) * 4 + b2 / 64 < 64 := by omega
      have hs3 : b2 % 64 < 64 := by omega
      have ih := b64EncodeList_mem rest hrest
      intro c hc
      simp only [b64EncodeList, List.mem_cons] at hc
      rcases hc with rfl | rfl | rfl | rfl | hc
      · exact ⟨enc_keep _ hs0, enc_ascii _ hs0⟩
      · exact ⟨enc_keep _ hs1, enc_ascii _ hs1⟩
      · exact ⟨enc_keep _ hs2, enc_ascii _ hs2⟩
      · exact ⟨enc_keep _ hs3, enc_ascii _ hs3⟩
      · exact ih c hc

/-- Python's `b64decode` inverts `b64encode` on byte lists. -/
theorem pyB64decode_b64encode (bs : List Nat) (h : ∀ b ∈ bs, b < 256) :
    pyB64decode (b64encode bs) = some bs := by
  have hmem := b64EncodeList_mem bs h
  have htl : (b64encode bs).toList = b64EncodeList bs := rfl
  have hascii : hasNonAscii (b64encode bs) = false := by
    unfold hasNonAscii
    rw [htl, List.any_eq_false]
    intro c hc
    have := (hmem c hc).2
    simp only [decide_eq_true_eq]
    omega
  have hfil : (b64EncodeList bs).filter isB64Keep = b64EncodeList bs :=
    List.filter_eq_self.mpr (fun c hc => (hmem c hc).1)
  unfold pyB64decode
  rw [hascii, htl, hfil]
  simp only [Bool.false_eq_true, if_false]
  exact b64_decode_encode bs h

/-! ### Helper lemmas about the session -/

/-- Appending no effects on the left is the identity. -/
theorem Effects.empty_append (e : Effects) : Effects.append Effects.empty e = e := by
  cases e
  simp [Effects.append, Effects.empty]

/-- The loop processes the head message, then the rest. -/
theorem runSession_cons (env : Env) (m : Option JValue) (rest : List (Option JValue)) :
    runSession env (m :: rest) = Effects.append (handleMessage env m) (runSession env rest) :=
  rfl

/-- Inversion for the media pipeline: either it sends nothing, or every
stage succeeded and the effects are exactly one synthesis call, one
transcoding call and one sent frame. -/
theorem mediaPipeline_inv (env : Env) (fields : List (String × JValue)) :
    (mediaPipeline env fields).sent = []
    ∨ ∃ rt ab s resp,
        mediaPre fields (mediaValOf fields) = Except.ok rt
        ∧ env.synth rt = some ab ∧ ¬ (ab = [])
        ∧ AudioConverter.to_pcm_base64 env.audio ab = some s ∧ ¬ (s = "")
        ∧ buildResponse fields (mediaValOf fields) s = Except.ok resp
        ∧ mediaPipeline env fields = ⟨[rt], [ab], [resp]⟩ := by
  unfold mediaPipeline
  cases h1 : mediaPre fields (mediaValOf fields) with
  | error e => exact Or.inl rfl
  | ok rt =>
    dsimp only
    cases h2 : env.synth rt with
    | none => exact Or.inl rfl
    | some ab =>
      dsimp only
      by_cases h3 : ab = []
      · rw [if_pos h3]
        exact Or.inl rfl
      · rw [if_neg h3]
        cases h4 : AudioConverter.to_pcm_base64 env.audio ab with
        | none => exact Or.inl rfl
        | some s =>
          dsimp only
          by_cases h5 : s = ""
          · rw [if_pos h5]
            exact Or.inl rfl
          · rw [if_neg h5]
            cases h6 : buildResponse fields (mediaValOf fields) s with
            | error e => exact Or.inl rfl
            | ok resp =>
              exact Or.inr ⟨rt, ab, s, resp, rfl, h2, h3, h4, h5, h6, rfl⟩

/-- Inversion for one loop iteration: a message either has no effects at
all, or it is a parsed object whose `event` is `"media"` and its effects
are those of the media pipeline. -/
theorem handleMessage_inv (env : Env) (msg : Option JValue) :
    handleMessage env msg = Effects.empty
    ∨ ∃ fields, msg = some (JValue.obj fields)
        ∧ jLookup fields "event" = some (JValue.str "media")
        ∧ handleMessage env msg = mediaPipeline env fields := by
  cases msg with
  | none => exact Or.inl rfl
  | some v =>
    cases v with
    | null => exact Or.inl rfl
    | bool b => exact Or.inl rfl
    | num n => exact Or.inl rfl
    | str s => exact Or.inl rfl
    | arr xs => exact Or.inl rfl
    | obj fields =>
      cases hev : jLookup fields "event" with
      | none => exact Or.inl (by simp [handleMessage, hev])
      | some ev =>
        cases ev with
        | null => exact Or.inl (by simp [handleMessage, hev])
        | bool b => exact Or.inl (by simp [handleMessage, hev])
        | num n => exact Or.inl (by simp [handleMessage, hev])
        | arr xs => exact Or.inl (by simp [handleMessage, hev])
        | obj fs => exact Or.inl (by simp [handleMessage, hev])
        | str e =>
          by_cases he : e = "media"
          · subst he
            exact Or.inr ⟨fields, rfl, hev, by simp [handleMessage, hev]⟩
          · exact Or.inl (by simp [handleMessage, hev, he])

/-- When the media branch is taken, the effects are the pipeline's. -/
theorem handleMessage_media (env : Env) (fields : List (String × JValue))
    (hev : jLookup fields "event" = some (JValue.str "media")) :
    handleMessage env (some (JValue.obj fields)) = mediaPipeline env fields := by
  simp [handleMessage, hev]

/-- When every stage succeeds, the pipeline's effects are exactly one
synthesis call, one transcoding call, and the constructed frame. -/
theorem mediaPipeline_success (env : Env) (fields : List (String × JValue))
    (rt : JValue) (ab : List Nat) (s : String) (resp : JValue)
    (h1 : mediaPre fields (mediaValOf fields) = Except.ok rt)
    (h2 : env.synth rt = some ab) (h3 : ¬ (ab = []))
    (h4 : AudioConverter.to_pcm_base64 env.audio ab = some s) (h5 : ¬ (s = ""))
    (h6 : buildResponse fields (mediaValOf fields) s = Except.ok resp) :
    mediaPipeline env fields = ⟨[rt], [ab], [resp]⟩ := by
  unfold mediaPipeline
  rw [h1]
  dsimp only
  rw [h2]
  dsimp only
  rw [if_neg h3, h4]
  dsimp only
  rw [if_neg h5, h6]

/-- A failing pre-stage (missing fields, bad payload, bad parameters)
yields no effects at all. -/
theorem mediaPipeline_pre_error (env : Env) (fields : List (String × JValue))
    (e : Unit) (h : mediaPre fields (mediaValOf fields) = Except.error e) :
    mediaPipeline env fields = Effects.empty := by
  unfold mediaPipeline
  rw [h]

/-- A failing response construction aborts the frame after synthesis and
transcoding: both calls happened, nothing is sent. -/
theorem mediaPipeline_build_error (env : Env) (fields : List (String × JValue))
    (rt : JValue) (ab : List Nat) (s : String)
    (h1 : mediaPre fields (mediaValOf fields) = Except.ok rt)
    (h2 : env.synth rt = some ab) (h3 : ¬ (ab = []))
    (h4 : AudioConverter.to_pcm_base64 env.audio ab = some s) (h5 : ¬ (s = ""))
    (h6 : buildResponse fields (mediaValOf fields) s = Except.error ()) :
    mediaPipeline env fields = ⟨[rt], [ab], []⟩ := by
  unfold mediaPipeline
  rw [h1]
  dsimp only
  rw [h2]
  dsimp only
  rw [if_neg h3, h4]
  dsimp only
  rw [if_neg h5, h6]

/-- A media object missing one of the three required fields fails the
validation of source line 126. -/
theorem mediaPre_missing_field (fields : List (String × JValue))
    (m : List (String × JValue))
    (hmiss : jLookup m "payload" = none ∨ jLookup m "chunk" = none ∨
      jLookup m "timestamp" = none) :
    mediaPre fields (JValue.obj m) = Except.error () := by
  rcases hmiss with h | h | h
  · simp [mediaPre, pyContains, h]
  · cases hp : jLookup m "payload" with
    | none => simp [mediaPre, pyContains, hp]
    | some v => simp [mediaPre, pyContains, hp, h]
  · cases hp : jLookup m "payload" with
    | none => simp [mediaPre, pyContains, hp]
    | some v =>
      cases hc : jLookup m "chunk" with
      | none => simp [mediaPre, pyContains, hp, hc]
      | some w => simp [mediaPre, pyContains, hp, hc, h]

/-- A frame missing `stream_sid` or `sequence_number` fails response
construction (the `KeyError` of source lines 150-151). -/
theorem buildResponse_missing_key (fields : List (String × JValue))
    (media : JValue) (s : String)
    (hmiss : jLookup fields "stream_sid" = none ∨
      jLookup fields "sequence_number" = none) :
    buildResponse fields media s = Except.error () := by
  rcases hmiss with h | h
  · simp [buildResponse, pyGetItem, h]
  · cases hs : jLookup fields "stream_sid" with
    | none => simp [buildResponse, pyGetItem, hs]
    | some sid => simp [buildResponse, pyGetItem, hs, h]

/-- Inversion of a successful response construction: every lookup and
conversion succeeded, and the frame is the literal of lines 148-157. -/
theorem buildResponse_inv (fields : List (String × JValue)) (media : JValue)
    (s : String) (resp : JValue)
    (h : buildResponse fields media s = Except.ok resp) :
    ∃ sid seqv seqOut chunkv chunkOut tsv i,
      jLookup fields "stream_sid" = some sid
      ∧ jLookup fields "sequence_number" = some seqv
      ∧ pyAddOne seqv = Except.ok seqOut
      ∧ pyGetItem media "chunk" = Except.ok chunkv
      ∧ pyAddOne chunkv = Except.ok chunkOut
      ∧ pyGetItem media "timestamp" = Except.ok tsv
      ∧ pyToInt tsv = Except.ok i
      ∧ resp = JValue.obj
          [("event", JValue.str "media"),
           ("stream_sid", sid),
           ("sequence_number", seqOut),
           ("media", JValue.obj
             [("chunk", chunkOut),
              ("timestamp", JValue.str (toString (i + 20))),
              ("payload", JValue.str s)])] := by
  unfold buildResponse at h
  cases h0 : pyGetItem (JValue.obj fields) "stream_sid" with
  | error e => rw [h0] at h; cases h
  | ok sid =>
    rw [h0] at h
    dsimp only at h
    cases h1 : pyGetItem (JValue.obj fields) "sequence_number" with
    | error e => rw [h1] at h; cases h
    | ok seqv =>
      rw [h1] at h
      dsimp only at h
      cases h2 : pyAddOne seqv with
      | error e => rw [h2] at h; cases h
      | ok seqOut =>
        rw [h2] at h
        dsimp only at h
        cases h3 : pyGetItem media "chunk" with
        | error e => rw [h3] at h; cases h
        | ok chunkv =>
          rw [h3] at h
          dsimp only at h
          cases h4 : pyAddOne chunkv with
          | error e => rw [h4] at h; cases h
          | ok chunkOut =>
            rw [h4] at h
            dsimp only at h
            cases h5 : pyGetItem media "timestamp" with
            | error e => rw [h5] at h; cases h
            | ok tsv =>
              rw [h5] at h
              dsimp only at h
              cases h6 : pyToInt tsv with
              | error e => rw [h6] at h; cases h
              | ok i =>
                rw [h6] at h
                dsimp only at h
                injection h with h7
                have h0l : jLookup fields "stream_sid" = some sid := by
                  unfold pyGetItem at h0
                  dsimp only at h0
                  cases hl : jLookup fields "stream_sid" with
                  | none => rw [hl] at h0; cases h0
                  | some v => rw [hl] at h0; dsimp only at h0; injection h0 with h0e; rw [h0e]
                have h1l : jLookup fields "sequence_number" = some seqv := by
                  unfold pyGetItem at h1
                  dsimp only at h1
                  cases hl : jLookup fields "sequence_number" with
                  | none => rw [hl] at h1; cases h1
                  | some v => rw [hl] at h1; dsimp only at h1; injection h1 with h1e; rw [h1e]
                exact ⟨sid, seqv, seqOut, chunkv, chunkOut, tsv, i,
                  h0l, h1l, h2, rfl, h4, rfl, h6, h7.symm⟩

/-! ### Claim theorems -/

/-- C1: for every inbound media frame whose pipeline completes successfully
(an outbound frame is emitted), the outbound frame's `sequence_number` is
the inbound `sequence_number` plus one, its `media.chunk` is the inbound
`media.chunk` plus one, and its `media.timestamp` is the decimal string of
the parsed inbound `media.timestamp` plus twenty. -/
theorem seq_invariant_outbound (env : Env) (fields m : List (String × JValue))
    (n c : Int) (ts : String) (i : Int) (out : JValue)
    (hseq : jLookup fields "sequence_number" = some (JValue.num n))
    (hm : jLookup fields "media" = some (JValue.obj m))
    (hc : jLookup m "chunk" = some (JValue.num c))
    (hts : jLookup m "timestamp" = some (JValue.str ts))
    (hi : pyStrToInt ts = some i)
    (hout : (handleMessage env (some (JValue.obj fields))).sent = [out]) :
    ∃ outm, jLookupV out "sequence_number" = some (JValue.num (n + 1))
      ∧ jLookupV out "media" = some (JValue.obj outm)
      ∧ jLookup outm "chunk" = some (JValue.num (c + 1))
      ∧ jLookup outm "timestamp" = some (JValue.str (toString (i + 20))) := by
  rcases handleMessage_inv env (some (JValue.obj fields)) with hE | ⟨f2, hEq, hev, hM⟩
  · rw [hE] at hout
    cases hout
  · injection hEq with hEq2
    injection hEq2 with hEq3
    subst hEq3
    rw [hM] at hout
    rcases mediaPipeline_inv env fields with hs | ⟨rt, ab, s, resp, h1, h2, h3, h4, h5, h6, hEff⟩
    · rw [hs] at hout
      cases hout
    · rw [hEff] at hout
      dsimp only at hout
      injection hout with hout1 hout2
      subst hout1
      have hmv : mediaValOf fields = JValue.obj m := by
        simp [mediaValOf, hm]
      rw [hmv] at h6
      rcases buildResponse_inv fields (JValue.obj m) s resp h6 with
        ⟨sid, seqv, seqOut, chunkv, chunkOut, tsv, i2, hsid, hseqv, hseqOut,
         hchunkv, hchunkOut, htsv, hi2, hresp⟩
      rw [hseq] at hseqv
      injection hseqv with hseqv2
      subst hseqv2
      simp only [pyAddOne] at hseqOut
      injection hseqOut with hseqOut2
      subst hseqOut2
      have hchunkv2 : chunkv = JValue.num c := by
        unfold pyGetItem at hchunkv
        dsimp only at hchunkv
        rw [hc] at hchunkv
        dsimp only at hchunkv
        injection hchunkv with he
        exact he.symm
      subst hchunkv2
      simp only [pyAddOne] at hchunkOut
      injection hchunkOut with hchunkOut2
      subst hchunkOut2
      have htsv2 : tsv = JValue.str ts := by
        unfold pyGetItem at htsv
        dsimp only at htsv
        rw [hts] at htsv
        dsimp only at htsv
        injection htsv with he
        exact he.symm
      subst htsv2
      simp only [pyToInt, hi] at hi2
      injection hi2 with hi3
      subst hi3
      subst hresp
      exact ⟨_, rfl, rfl, rfl, rfl⟩

/-- Witness for C1 at the spec's end-to-end scenario frame. -/
theorem seq_invariant_outbound_witness :
    ∃ outm, jLookupV exOut "sequence_number" = some (JValue.num 2)
      ∧ jLookupV exOut "media" = some (JValue.obj outm)
      ∧ jLookup outm "chunk" = some (JValue.num 2)
      ∧ jLookup outm "timestamp" = some (JValue.str (toString ((1000 : Int) + 20))) :=
  seq_invariant_outbound exEnvOk exFields exMediaFields 1 1 "1000" 1000 exOut
    rfl rfl rfl rfl rfl rfl

/-- C2 counterexample: a frame whose synthesis call succeeds with non-empty
audio (the call is made and returns the byte 65) but whose transcoding
fails produces zero outbound frames, refuting "exactly one outbound frame
whenever synthesis succeeds". -/
theorem synth_success_without_outbound_cex :
    exEnvTransFail.synth (JValue.str "hi") = some [65]
    ∧ (handleMessage exEnvTransFail (some (JValue.obj exFields))).synthCalls
        = [JValue.str "hi"]
    ∧ (handleMessage exEnvTransFail (some (JValue.obj exFields))).sent = [] :=
  ⟨rfl, rfl, rfl⟩

/-- C2 amended: each inbound message yields at most one outbound frame;
an outbound frame arises only from a parsed `media` event; when the whole
pipeline succeeds (synthesis non-empty, transcoding non-empty, response
construction succeeds) exactly one outbound frame is sent; and the loop
emits the frames of consecutive messages in input order. -/
theorem media_outbound_multiplicity (env : Env) (msg : Option JValue) :
    (handleMessage env msg).sent.length ≤ 1
    ∧ ((handleMessage env msg).sent ≠ [] →
        ∃ fields, msg = some (JValue.obj fields)
          ∧ jLookup fields "event" = some (JValue.str "media"))
    ∧ (∀ fields rt ab s resp, msg = some (JValue.obj fields) →
        jLookup fields "event" = some (JValue.str "media") →
        mediaPre fields (mediaValOf fields) = Except.ok rt →
        env.synth rt = some ab → ¬ (ab = []) →
        AudioConverter.to_pcm_base64 env.audio ab = some s → ¬ (s = "") →
        buildResponse fields (mediaValOf fields) s = Except.ok resp →
        (handleMessage env msg).sent = [resp])
    ∧ (∀ rest, (runSession env (msg :: rest)).sent
        = (handleMessage env msg).sent ++ (runSession env rest).sent) := by
  refine ⟨?_, ?_, ?_, fun rest => rfl⟩
  · rcases handleMessage_inv env msg with hE | ⟨fields, hEq, hev, hM⟩
    · rw [hE]
      exact Nat.le_of_lt_succ (by simp [Effects.empty])
    · rw [hM]
      rcases mediaPipeline_inv env fields with hs | ⟨rt, ab, s, resp, h1, h2, h3, h4, h5, h6, hEff⟩
      · rw [hs]
        simp
      · rw [hEff]
        simp
  · intro hne
    rcases handleMessage_inv env msg with hE | ⟨fields, hEq, hev, hM⟩
    · rw [hE] at hne
      exact absurd rfl hne
    · exact ⟨fields, hEq, hev⟩
  · intro fields rt ab s resp hEq hev h1 h2 h3 h4 h5 h6
    subst hEq
    rw [handleMessage_media env fields hev,
      mediaPipeline_success env fields rt ab s resp h1 h2 h3 h4 h5 h6]

/-- Witness for C2's amended theorem on the end-to-end scenario frame. -/
theorem media_outbound_multiplicity_witness :
    (handleMessage exEnvOk (some (JValue.obj exFields))).sent = [exOut] :=
  (media_outbound_multiplicity exEnvOk (some (JValue.obj exFields))).2.2.1
    exFields (JValue.str "hi") [65] "TQ==" exOut rfl rfl rfl rfl
    (by decide) rfl (by decide) rfl

/-- C3 counterexample: a media frame arriving after a `stop` event is still
fully processed — the synthesis call happens and an outbound frame is
emitted — refuting "subsequent frames are no-ops after stop". -/
theorem media_after_stop_emits_cex :
    (runSession exEnvOk [exStopMsg, some (JValue.obj exFields)]).sent = [exOut]
    ∧ (runSession exEnvOk [exStopMsg, some (JValue.obj exFields)]).synthCalls
        = [JValue.str "hi"] :=
  ⟨rfl, rfl⟩

/-- C3 amended: the code treats `stop` as a pure logging event: it produces
no effects, and the session afterwards processes the remaining frames
exactly as it would have without the `stop` — it does not gate later media
frames. -/
theorem stop_event_is_noop (env : Env) (fields : List (String × JValue))
    (hev : jLookup fields "event" = some (JValue.str "stop")) :
    handleMessage env (some (JValue.obj fields)) = Effects.empty
    ∧ ∀ rest, runSession env (some (JValue.obj fields) :: rest) = runSession env rest := by
  have hne : ¬ (("stop" : String) = "media") := by decide
  have hempty : handleMessage env (some (JValue.obj fields)) = Effects.empty := by
    simp [handleMessage, hev, hne]
  refine ⟨hempty, fun rest => ?_⟩
  rw [runSession_cons, hempty, Effects.empty_append]

/-- Witness for C3's amended theorem at a concrete stop frame. -/
theorem stop_event_is_noop_witness :
    handleMessage exEnvOk (some (JValue.obj [("event", JValue.str "stop")]))
      = Effects.empty
    ∧ runSession exEnvOk (some (JValue.obj [("event", JValue.str "stop")])
        :: [some (JValue.obj exFields)])
      = runSession exEnvOk [some (JValue.obj exFields)] :=
  ⟨(stop_event_is_noop exEnvOk [("event", JValue.str "stop")] rfl).1,
   (stop_event_is_noop exEnvOk [("event", JValue.str "stop")] rfl).2
     [some (JValue.obj exFields)]⟩

/-- C4 counterexample: two media frames carrying stream_sid `"a"` then
`"b"` produce outbound frames echoing `"a"` then `"b"`; the second
outbound frame does not carry the first-seen identifier `"a"`, refuting
"set on first media frame, immutable thereafter". -/
theorem stream_sid_not_latched_cex :
    (runSession exEnvOk
        [some (JValue.obj exFieldsSidA), some (JValue.obj exFieldsSidB)]).sent.map
        (fun f => jLookupV f "stream_sid")
      = [some (JValue.str "a"), some (JValue.str "b")] :=
  rfl

/-- C4 amended: the session stores no stream identifier; every outbound
frame echoes verbatim the `stream_sid` of its own triggering inbound
frame, whatever earlier frames carried. -/
theorem stream_sid_echoed_per_frame (env : Env)
    (fields : List (String × JValue)) (out : JValue)
    (hout : (handleMessage env (some (JValue.obj fields))).sent = [out]) :
    ∃ sid, jLookup fields "stream_sid" = some sid
      ∧ jLookupV out "stream_sid" = some sid := by
  rcases handleMessage_inv env (some (JValue.obj fields)) with hE | ⟨f2, hEq, hev, hM⟩
  · rw [hE] at hout
    cases hout
  · injection hEq with hEq2
    injection hEq2 with hEq3
    subst hEq3
    rw [hM] at hout
    rcases mediaPipeline_inv env fields with hs | ⟨rt, ab, s, resp, h1, h2, h3, h4, h5, h6, hEff⟩
    · rw [hs] at hout
      cases hout
    · rw [hEff] at hout
      dsimp only at hout
      injection hout with hout1 hout2
      subst hout1
      rcases buildResponse_inv fields (mediaValOf fields) s resp h6 with
        ⟨sid, seqv, seqOut, chunkv, chunkOut, tsv, i2, hsid, hseqv, hseqOut,
         hchunkv, hchunkOut, htsv, hi2, hresp⟩
      subst hresp
      exact ⟨sid, hsid, rfl⟩

/-- Witness for C4's amended theorem on the end-to-end scenario frame. -/
theorem stream_sid_echoed_per_frame_witness :
    ∃ sid, jLookup exFields "stream_sid" = some sid
      ∧ jLookupV exOut "stream_sid" = some sid :=
  stream_sid_echoed_per_frame exEnvOk exFields exOut rfl

/-- C5: an inbound message that is not valid JSON (`none`) or parses to a
non-object value produces no effects at all — no outbound frame, no
synthesis, no transcoding — leaves the (spec-modelled) lifecycle state
unchanged, and the loop processes the remaining messages exactly as if
the message had never arrived; in the model every per-message exception
is already caught, so processing is total. -/
theorem malformed_message_no_effect (env : Env) (msg : Option JValue)
    (h : msg = none ∨ ∃ v, msg = some v ∧ v.isObj = false) :
    handleMessage env msg = Effects.empty
    ∧ (∀ s, stepLifecycle s msg = s)
    ∧ (∀ rest, runSession env (msg :: rest) = runSession env rest) := by
  have hempty : handleMessage env msg = Effects.empty ∧ ∀ s, stepLifecycle s msg = s := by
    rcases h with rfl | ⟨v, rfl, hv⟩
    · exact ⟨rfl, fun s => rfl⟩
    · cases v with
      | null => exact ⟨rfl, fun s => rfl⟩
      | bool b => exact ⟨rfl, fun s => rfl⟩
      | num n => exact ⟨rfl, fun s => rfl⟩
      | str s2 => exact ⟨rfl, fun s => rfl⟩
      | arr xs => exact ⟨rfl, fun s => rfl⟩
      | obj fields => cases hv
  refine ⟨hempty.1, hempty.2, fun rest => ?_⟩
  rw [runSession_cons, hempty.1, Effects.empty_append]

/-- Witness for C5 at an undecodable message followed by a media frame. -/
theorem malformed_message_no_effect_witness :
    handleMessage exEnvOk none = Effects.empty
    ∧ stepLifecycle LState.active none = LState.active
    ∧ runSession exEnvOk (none :: [some (JValue.obj exFields)])
        = runSession exEnvOk [some (JValue.obj exFields)] :=
  ⟨(malformed_message_no_effect exEnvOk none (Or.inl rfl)).1,
   (malformed_message_no_effect exEnvOk none (Or.inl rfl)).2.1 LState.active,
   (malformed_message_no_effect exEnvOk none (Or.inl rfl)).2.2
     [some (JValue.obj exFields)]⟩

/-- C6: a media event whose media object lacks `payload`, `chunk` or
`timestamp` yields no effects at all — in particular no synthesis call
and no outbound frame — and the loop continues with the next message
unchanged. -/
theorem missing_media_fields_no_effect (env : Env)
    (fields m : List (String × JValue))
    (hev : jLookup fields "event" = some (JValue.str "media"))
    (hm : jLookup fields "media" = some (JValue.obj m))
    (hmiss : jLookup m "payload" = none ∨ jLookup m "chunk" = none ∨
      jLookup m "timestamp" = none) :
    handleMessage env (some (JValue.obj fields)) = Effects.empty
    ∧ ∀ rest, runSession env (some (JValue.obj fields) :: rest)
        = runSession env rest := by
  have hmv : mediaValOf fields = JValue.obj m := by
    simp [mediaValOf, hm]
  have hpre : mediaPre fields (mediaValOf fields) = Except.error () := by
    rw [hmv]
    exact mediaPre_missing_field fields m hmiss
  have hempty : handleMessage env (some (JValue.obj fields)) = Effects.empty := by
    rw [handleMessage_media env fields hev]
    exact mediaPipeline_pre_error env fields () hpre
  refine ⟨hempty, fun rest => ?_⟩
  rw [runSession_cons, hempty, Effects.empty_append]

/-- Witness for C6 at a media frame lacking its timestamp. -/
theorem missing_media_fields_no_effect_witness :
    handleMessage exEnvOk (some (JValue.obj exFieldsMissingTs)) = Effects.empty
    ∧ runSession exEnvOk (some (JValue.obj exFieldsMissingTs)
        :: [some (JValue.obj exFields)])
      = runSession exEnvOk [some (JValue.obj exFields)] :=
  ⟨(missing_media_fields_no_effect exEnvOk exFieldsMissingTs
      [("payload", JValue.str ""), ("chunk", JValue.num 1)]
      rfl rfl (Or.inr (Or.inr rfl))).1,
   (missing_media_fields_no_effect exEnvOk exFieldsMissingTs
      [("payload", JValue.str ""), ("chunk", JValue.num 1)]
      rfl rfl (Or.inr (Or.inr rfl))).2 [some (JValue.obj exFields)]⟩

/-- C7: when the synthesis remote call fails or returns empty bytes, or
when transcoding fails or returns an empty payload, the frame's pipeline
aborts with no outbound frame, and the loop goes on to process the
remaining messages. -/
theorem synth_transcode_failure_no_outbound (env : Env) (msg : Option JValue) :
    ((∀ t, env.synth t = none ∨ env.synth t = some []) →
        (handleMessage env msg).sent = [])
    ∧ ((∀ bs, AudioConverter.to_pcm_base64 env.audio bs = none ∨
          AudioConverter.to_pcm_base64 env.audio bs = some "") →
        (handleMessage env msg).sent = [])
    ∧ (∀ rest, runSession env (msg :: rest)
        = Effects.append (handleMessage env msg) (runSession env rest)) := by
  refine ⟨?_, ?_, fun rest => rfl⟩
  · intro hs
    rcases handleMessage_inv env msg with hE | ⟨fields, hEq, hev, hM⟩
    · rw [hE]
      rfl
    · rw [hM]
      rcases mediaPipeline_inv env fields with h0 | ⟨rt, ab, s, resp, h1, h2, h3, h4, h5, h6, hEff⟩
      · exact h0
      · rcases hs rt with h7 | h7
        · rw [h2] at h7
          cases h7
        · rw [h2] at h7
          injection h7 with h8
          exact absurd h8 h3
  · intro ht
    rcases handleMessage_inv env msg with hE | ⟨fields, hEq, hev, hM⟩
    · rw [hE]
      rfl
    · rw [hM]
      rcases mediaPipeline_inv env fields with h0 | ⟨rt, ab, s, resp, h1, h2, h3, h4, h5, h6, hEff⟩
      · exact h0
      · rcases ht ab with h7 | h7
        · rw [h4] at h7
          cases h7
        · rw [h4] at h7
          injection h7 with h8
          exact absurd h8 h5

/-- Witness for C7 with an always-failing synthesis environment. -/
theorem synth_transcode_failure_no_outbound_witness :
    (handleMessage exEnvSynthFail (some (JValue.obj exFields))).sent = [] :=
  (synth_transcode_failure_no_outbound exEnvSynthFail
    (some (JValue.obj exFields))).1 (fun _ => Or.inl rfl)

/-- C8: for every input byte sequence, `to_pcm_base64` either fails with
`none` — in particular it always fails when the decode engine cannot
decode the input, and no exception crosses its boundary since it is a
total function into `Option` — or returns exactly the base64 encoding of
the PCM bytes the decode engine produced, and that payload is well formed:
decoding it yields those PCM bytes back. -/
theorem to_pcm_base64_total_safe (env : AudioEnv) (input : List Nat)
    (hdec : ∀ bs pcm, env.decode bs = some pcm → ∀ b ∈ pcm, b < 256) :
    (env.decode input = none → AudioConverter.to_pcm_base64 env input = none)
    ∧ (∀ s, AudioConverter.to_pcm_base64 env input = some s →
        ∃ pcm, env.decode input = some pcm ∧ s = b64encode pcm
          ∧ pyB64decode s = some pcm) := by
  constructor
  · intro h
    unfold AudioConverter.to_pcm_base64
    rw [h]
    by_cases h1 : env.ffmpegExists = false
    · rw [if_pos h1]
    · rw [if_neg h1]
      by_cases h2 : env.ffprobeExists = false
      · rw [if_pos h2]
      · rw [if_neg h2]
  · intro s hs
    unfold AudioConverter.to_pcm_base64 at hs
    by_cases h1 : env.ffmpegExists = false
    · rw [if_pos h1] at hs
      cases hs
    · rw [if_neg h1] at hs
      by_cases h2 : env.ffprobeExists = false
      · rw [if_pos h2] at hs
        cases hs
      · rw [if_neg h2] at hs
        cases hd : env.decode input with
        | none => rw [hd] at hs; cases hs
        | some pcm =>
          rw [hd] at hs
          dsimp only at hs
          injection hs with hs2
          refine ⟨pcm, rfl, hs2.symm, ?_⟩
          rw [← hs2]
          exact pyB64decode_b64encode pcm (hdec input pcm hd)

/-- Witness for C8 at a concrete decode engine producing bytes 0 and 255. -/
theorem to_pcm_base64_total_safe_witness :
    ∃ pcm, exAudioEnv.decode [9] = some pcm ∧ b64encode [0, 255] = b64encode pcm
      ∧ pyB64decode (b64encode [0, 255]) = some pcm :=
  (to_pcm_base64_total_safe exAudioEnv [9]
      (by
        intro bs pcm h b hb
        have h2 : some [0, 255] = some pcm := h
        injection h2 with h3
        rw [← h3] at hb
        simp at hb
        rcases hb with h4 | h4 <;> omega)).2
    (b64encode [0, 255]) rfl

/-- C9 counterexample: with the API key unset, `TTSService` construction
raises, yet the process still reaches `websockets.serve` — startup never
consults the credentials — refuting "the process does not start serving". -/
theorem missing_creds_still_serves_cex :
    TTSService.construct ⟨none, some "v", none⟩
      = Except.error "Missing ElevenLabs API credentials in environment variables"
    ∧ processStarts ⟨true, true, fun _ => none⟩ ⟨none, some "v", none⟩ = true :=
  ⟨rfl, rfl⟩

/-- C9 amended: `TTSService` construction succeeds exactly when both
credentials are present and non-empty; when either is missing the
per-connection handler fails before reading any message, so no session
processes frames; but whether the process starts serving is independent
of the credentials. -/
theorem tts_credentials_gate (os2 : OsEnv) (env : Env)
    (msgs : List (Option JValue)) :
    (ttsConstructOk os2
      = (pyTruthyOptStr os2.elevenlabsApiKey && pyTruthyOptStr os2.elevenlabsVoiceId))
    ∧ ((pyTruthyOptStr os2.elevenlabsApiKey && pyTruthyOptStr os2.elevenlabsVoiceId) = false →
        exotelHandler os2 env msgs
          = Except.error "Missing ElevenLabs API credentials in environment variables")
    ∧ (∀ audio : AudioEnv, processStarts audio os2
        = processStarts audio ⟨none, none, os2.websocketPort⟩) := by
  refine ⟨?_, ?_, fun audio => rfl⟩
  · unfold ttsConstructOk TTSService.construct
    cases hb : (pyTruthyOptStr os2.elevenlabsApiKey && pyTruthyOptStr os2.elevenlabsVoiceId) with
    | true => simp
    | false => simp
  · intro h
    unfold exotelHandler TTSService.construct
    rw [h]
    simp

/-- Witness for C9's amended theorem with a missing API key. -/
theorem tts_credentials_gate_witness :
    exotelHandler ⟨none, some "v", some "9000"⟩ exEnvOk []
      = Except.error "Missing ElevenLabs API credentials in environment variables" :=
  (tts_credentials_gate ⟨none, some "v", some "9000"⟩ exEnvOk []).2.1 rfl

/-- C10: a media event carrying `payload`, `chunk` and `timestamp` but
missing the top-level `stream_sid` or `sequence_number` still runs
synthesis and transcoding, yet sends nothing (the `KeyError` of lines
150-151 is caught), and the loop continues with the next message. -/
theorem missing_sid_or_seq_pipeline_runs (env : Env)
    (fields : List (String × JValue)) (rt : JValue) (ab : List Nat) (s : String)
    (hev : jLookup fields "event" = some (JValue.str "media"))
    (hpre : mediaPre fields (mediaValOf fields) = Except.ok rt)
    (hsynth : env.synth rt = some ab) (hab : ¬ (ab = []))
    (htr : AudioConverter.to_pcm_base64 env.audio ab = some s) (hs : ¬ (s = ""))
    (hmiss : jLookup fields "stream_sid" = none ∨
      jLookup fields "sequence_number" = none) :
    handleMessage env (some (JValue.obj fields)) = ⟨[rt], [ab], []⟩
    ∧ ∀ rest, (runSession env (some (JValue.obj fields) :: rest)).sent
        = (runSession env rest).sent := by
  have hbuild : buildResponse fields (mediaValOf fields) s = Except.error () :=
    buildResponse_missing_key fields (mediaValOf fields) s hmiss
  have heq : handleMessage env (some (JValue.obj fields)) = ⟨[rt], [ab], []⟩ := by
    rw [handleMessage_media env fields hev]
    exact mediaPipeline_build_error env fields rt ab s hpre hsynth hab htr hs hbuild
  refine ⟨heq, fun rest => ?_⟩
  rw [runSession_cons, heq]
  rfl

/-- Witness for C10 at a frame lacking `stream_sid`. -/
theorem missing_sid_or_seq_pipeline_runs_witness :
    handleMessage exEnvOk (some (JValue.obj exFieldsNoSid))
      = ⟨[JValue.str "hi"], [[65]], []⟩
    ∧ (runSession exEnvOk (some (JValue.obj exFieldsNoSid)
        :: [some (JValue.obj exFields)])).sent
      = (runSession exEnvOk [some (JValue.obj exFields)]).sent :=
  ⟨(missing_sid_or_seq_pipeline_runs exEnvOk exFieldsNoSid (JValue.str "hi")
      [65] "TQ==" rfl rfl rfl (by decide) rfl (by decide) (Or.inl rfl)).1,
   (missing_sid_or_seq_pipeline_runs exEnvOk exFieldsNoSid (JValue.str "hi")
      [65] "TQ==" rfl rfl rfl (by decide) rfl (by decide) (Or.inl rfl)).2
     [some (JValue.obj exFields)]⟩
